import Mathlib

/-!
# Verification of the usbd-hid descriptor compiler

Shallow embedding of the HID report-descriptor compiler of the
`usbd-hid` repository, together with theorems settling the frozen
claims about it.

The repository contains two revisions of the macro crate side by side:

* `src/macros/src/lib.rs` — the monolithic revision; it is the crate
  root and contains the byte emitter (`DescCompilation`), its own
  constant resolver and its own `analyze_field`.  Embedded below in
  namespace `Lib`.
* `src/macros/src/spec.rs`, `src/macros/src/item.rs`,
  `src/macros/src/packer.rs` — the refactored revision's parser
  structures, field analyzer and serializer generator.  Embedded below
  in namespaces `Spec`, `Item` and `Packer`.

`src/descriptors/src/lib.rs` (the `usbd-hid-descriptors` crate) is
shared by both revisions and embedded in namespace `Descriptors`.

Machine integers are modelled as `Nat`/`Int`; where Rust fixed-width
arithmetic can wrap (release builds; debug builds panic instead) the
embedding applies the wrap explicitly (`% 2^32`, `% 2^16`) and the
spot is marked with a comment.
-/

namespace UsbdHid

namespace Descriptors

/-- `GlobalItemKind` from descriptors/src/lib.rs: global item tags of
HID spec section 6.2.2.7. -/
inductive GlobalItemKind where
  | usagePage
  | logicalMin
  | logicalMax
  | physicalMin
  | physicalMax
  | unitExponent
  | unit
  | reportSize
  | reportID
  | reportCount
deriving DecidableEq, Repr

/-- The numeric discriminant of `GlobalItemKind` (its `Into<u8>`). -/
def GlobalItemKind.toNat : GlobalItemKind → Nat
  | .usagePage => 0
  | .logicalMin => 1
  | .logicalMax => 2
  | .physicalMin => 3
  | .physicalMax => 4
  | .unitExponent => 5
  | .unit => 6
  | .reportSize => 7
  | .reportID => 8
  | .reportCount => 9

/-- `LocalItemKind` from descriptors/src/lib.rs: local item tags of HID
spec section 6.2.2.8. -/
inductive LocalItemKind where
  | usage
  | usageMin
  | usageMax
  | designatorIdx
  | designatorMin
  | designatorMax
  | stringIdx
  | stringMin
  | stringMax
  | delimiter
deriving DecidableEq, Repr

/-- The numeric discriminant of `LocalItemKind` (its `Into<u8>`). -/
def LocalItemKind.toNat : LocalItemKind → Nat
  | .usage => 0
  | .usageMin => 1
  | .usageMax => 2
  | .designatorIdx => 3
  | .designatorMin => 4
  | .designatorMax => 5
  | .stringIdx => 7
  | .stringMin => 8
  | .stringMax => 9
  | .delimiter => 10

/-- `MainItemKind` from descriptors/src/lib.rs: main item tags of HID
spec section 6.2.2.4. -/
inductive MainItemKind where
  | input
  | output
  | feature
  | collection
  | endCollection
deriving DecidableEq, Repr

/-- The numeric discriminant of `MainItemKind` (its `Into<u8>`):
`Input = 0b1000`, `Output = 0b1001`, `Feature = 0b1011`,
`Collection = 0b1010`, `EndCollection = 0b1100`. -/
def MainItemKind.toNat : MainItemKind → Nat
  | .input => 8
  | .output => 9
  | .feature => 11
  | .collection => 10
  | .endCollection => 12

instance : Inhabited MainItemKind := ⟨.input⟩

/-- `Into<MainItemKind> for String` from descriptors/src/lib.rs: every
string not matching a recognized keyword falls to the catch-all arm and
becomes `Input`. -/
def stringToMainItemKind (s : String) : MainItemKind :=
  if s = "feature" then .feature
  else if s = "output" then .output
  else if s = "collection" then .collection
  else if s = "ecollection" then .endCollection
  else if s = "input" then .input
  else .input

/-- `ItemType` from descriptors/src/lib.rs. -/
inductive ItemType where
  | main
  | global
  | local
deriving DecidableEq, Repr

/-- The numeric discriminant of `ItemType` (its `Into<u8>`). -/
def ItemType.toNat : ItemType → Nat
  | .main => 0
  | .global => 1
  | .local => 2

/-- `MainItemSetting::set_constant` of the `bitfield!` in
descriptors/src/lib.rs: bit 0 of the settings byte. -/
def setConstant (v : Nat) (b : Bool) : Nat :=
  if b then v ||| 1 else v &&& 254

/-- `MainItemSetting::set_variable` of the `bitfield!` in
descriptors/src/lib.rs: bit 1 of the settings byte. -/
def setVariable (v : Nat) (b : Bool) : Nat :=
  if b then v ||| 2 else v &&& 253

/-- `ItemPrefix::set_byte_count` of the `bitfield!` in
descriptors/src/lib.rs: bits 1..0 of the one-byte item header. -/
def setByteCount (p c : Nat) : Nat :=
  p / 4 * 4 + c % 4

/-- `ItemPrefix::set_type` of the `bitfield!` in
descriptors/src/lib.rs: bits 3..2 of the one-byte item header. -/
def setType (p t : Nat) : Nat :=
  p / 16 * 16 + t % 4 * 4 + p % 4

/-- `ItemPrefix::set_tag` of the `bitfield!` in
descriptors/src/lib.rs: bits 7..4 of the one-byte item header. -/
def setTag (p t : Nat) : Nat :=
  t % 16 * 16 + p % 16

end Descriptors

open Descriptors

/-- `MainItem`, defined identically in macros/src/lib.rs and
macros/src/item.rs: the mandatory data points of a Main item. -/
structure MainItem where
  kind : MainItemKind
  logical_minimum : Int
  logical_maximum : Int
  report_count : Nat
  report_size : Nat
  padding_bits : Option Nat
deriving DecidableEq, Repr

/-- `ReportUnaryField`, defined identically in macros/src/lib.rs and
macros/src/item.rs.  The `syn::Ident` is modelled as the field's name. -/
structure ReportUnaryField where
  bit_width : Nat
  descriptor_item : MainItem
  ident : String
deriving DecidableEq, Repr

/-- The slice of Rust's `syn::Type` that `analyze_field` inspects: a
single-segment path type (e.g. `u8`), a fixed-size array whose length
is a literal (a non-literal length leaves `size = 0` in the source,
which is the same as length 0 here), or anything else. -/
inductive RustType where
  | path (name : String)
  | array (elem : RustType) (len : Nat)
  | other
deriving DecidableEq, Repr

/-- `DescCompilation` from macros/src/lib.rs: the cached last-emitted
global values threaded through descriptor compilation. -/
structure DescCompilation where
  logical_minimum : Option Int := none
  logical_maximum : Option Int := none
  report_size : Option Nat := none
  report_count : Option Nat := none
deriving DecidableEq, Repr

namespace Lib

/-- `ItemSpec` from macros/src/lib.rs (the monolithic revision has no
quirks field).  `MainItemSetting` is its raw `u8` value. -/
structure ItemSpec where
  kind : MainItemKind := .input
  settings : Option Nat := none
  want_bits : Option Nat := none
deriving DecidableEq, Repr

/-- `try_resolve_constant` from macros/src/lib.rs (lines 318-388).
Note `("collection", "LOGICAL")` resolves to `0x3`, the same value as
`REPORT`. -/
def tryResolveConstant (key_name path : String) : Option Nat :=
  match key_name, path with
  | "collection", "PHYSICAL" => some 0x0
  | "collection", "APPLICATION" => some 0x1
  | "collection", "LOGICAL" => some 0x3
  | "collection", "REPORT" => some 0x3
  | "collection", "NAMED_ARRAY" => some 0x4
  | "collection", "USAGE_SWITCH" => some 0x5
  | "collection", "USAGE_MODIFIER" => some 0x06
  | "usage_page", "UNDEFINED" => some 0x00
  | "usage_page", "GENERIC_DESKTOP" => some 0x01
  | "usage_page", "SIMULATION_CONTROLS" => some 0x02
  | "usage_page", "VR_CONTROLS" => some 0x03
  | "usage_page", "SPORT_CONTROLS" => some 0x04
  | "usage_page", "GAME_CONTROLS" => some 0x05
  | "usage_page", "GENERIC_DEVICE_CONTROLS" => some 0x06
  | "usage_page", "KEYBOARD" => some 0x07
  | "usage_page", "LEDS" => some 0x08
  | "usage_page", "BUTTON" => some 0x09
  | "usage_page", "ORDINAL" => some 0x0A
  | "usage_page", "TELEPHONY" => some 0x0B
  | "usage_page", "CONSUMER" => some 0x0C
  | "usage_page", "DIGITIZER" => some 0x0D
  | "usage_page", "ALPHANUMERIC_DISPLAY" => some 0x14
  | "usage_page", "BARCODE_SCANNER" => some 0x8C
  | "usage_page", "VENDOR_DEFINED_START" => some 0xFF00
  | "usage_page", "VENDOR_DEFINED_END" => some 0xFFFF
  | "usage", "POINTER" => some 0x01
  | "usage", "MOUSE" => some 0x02
  | "usage", "JOYSTICK" => some 0x04
  | "usage", "GAMEPAD" => some 0x05
  | "usage", "KEYBOARD" => some 0x06
  | "usage", "KEYPAD" => some 0x07
  | "usage", "MULTI_AXIS_CONTROLLER" => some 0x08
  | "usage", "X" => some 0x30
  | "usage_min", "X" => some 0x30
  | "usage_max", "X" => some 0x30
  | "usage", "Y" => some 0x31
  | "usage_min", "Y" => some 0x31
  | "usage_max", "Y" => some 0x31
  | "usage", "Z" => some 0x32
  | "usage_min", "Z" => some 0x32
  | "usage_max", "Z" => some 0x32
  | "usage", "NUM_LOCK" => some 0x01
  | "usage", "CAPS_LOCK" => some 0x02
  | "usage", "SCROLL_LOCK" => some 0x03
  | "usage", "POWER" => some 0x06
  | "usage", "SHIFT" => some 0x07
  | "usage", "MUTE" => some 0x09
  | "usage", "RING" => some 0x18
  | "usage", "BUTTON_NONE" => some 0x00
  | "usage", "BUTTON_1" => some 0x01
  | "usage_min", "BUTTON_1" => some 0x01
  | "usage", "BUTTON_2" => some 0x02
  | "usage", "BUTTON_3" => some 0x03
  | "usage_max", "BUTTON_3" => some 0x03
  | "usage", "BUTTON_4" => some 0x04
  | "usage_max", "BUTTON_4" => some 0x04
  | "usage", "BUTTON_5" => some 0x05
  | "usage", "BUTTON_6" => some 0x06
  | "usage", "BUTTON_7" => some 0x07
  | "usage", "BUTTON_8" => some 0x08
  | "usage_max", "BUTTON_8" => some 0x08
  | "usage", "CLEAR_DISPLAY" => some 0x25
  | "usage", "DISPLAY_ENABLE" => some 0x26
  | "usage", "CHARACTER_REPORT" => some 0x2B
  | "usage", "CHARACTER_DATA" => some 0x2C
  | _, _ => none

/-- `DescCompilation::emit` from macros/src/lib.rs (lines 630-652): the
short-form data encoding.  `hdr` is the item header byte with tag and
type already set (the source's `prefix` argument); `b0..b3` are the
little-endian data bytes.  Returns the emitted bytes (header included). -/
def emit (hdr b0 b1 b2 b3 : Nat) (signed : Bool) : List Nat :=
  if b1 = 0 ∧ b2 = 0 ∧ b3 = 0 ∧ ¬(signed = true ∧ b0 = 255) then
    [setByteCount hdr 1, b0]
  else if b2 = 0 ∧ b3 = 0 ∧ ¬(signed = true ∧ b1 = 255) then
    [setByteCount hdr 2, b0, b1]
  else
    [setByteCount hdr 3, b0, b1, b2, b3]

/-- `LittleEndian::write_i32(&mut buf, num as i32)`: the four
little-endian bytes of `num` truncated to 32 bits (two's complement). -/
def i32leBytes (num : Int) : Nat × Nat × Nat × Nat :=
  let m := (num % 4294967296).toNat
  (m % 256, m / 256 % 256, m / 65536 % 256, m / 16777216 % 256)

/-- `DescCompilation::emit_item` from macros/src/lib.rs (lines
654-675).  `typ` and `kind` are the raw `u8` discriminants.  A Main
item of kind Input with value 0 is emitted with a 0-byte data payload
(`allow_short` is computed from `typ` and `kind` only; no quirk is
consulted). -/
def emitItem (typ kind : Nat) (num : Int) (signed : Bool) : List Nat :=
  let hdr := setType (setTag 0 kind) typ
  let allowShort := typ = ItemType.main.toNat ∧ kind = MainItemKind.input.toNat
  if allowShort ∧ num = 0 then
    [setByteCount hdr 0]
  else
    let (b0, b1, b2, b3) := i32leBytes num
    emit hdr b0 b1 b2 b3 signed

/-- `DescCompilation::handle_globals` from macros/src/lib.rs (lines
677-694): emit each of the four global items only when it differs from
the cached last-emitted value, in the fixed order logical-minimum,
logical-maximum, report-size, report-count; update the cache. -/
def handleGlobals (s : DescCompilation) (item : MainItem) : DescCompilation × List Nat :=
  let b1 := if s.logical_minimum = some item.logical_minimum then []
            else emitItem ItemType.global.toNat GlobalItemKind.logicalMin.toNat item.logical_minimum true
  let lm := if s.logical_minimum = some item.logical_minimum then s.logical_minimum
            else some item.logical_minimum
  let b2 := if s.logical_maximum = some item.logical_maximum then []
            else emitItem ItemType.global.toNat GlobalItemKind.logicalMax.toNat item.logical_maximum true
  let lM := if s.logical_maximum = some item.logical_maximum then s.logical_maximum
            else some item.logical_maximum
  let b3 := if s.report_size = some item.report_size then []
            else emitItem ItemType.global.toNat GlobalItemKind.reportSize.toNat (item.report_size : Int) true
  let rs := if s.report_size = some item.report_size then s.report_size
            else some item.report_size
  let b4 := if s.report_count = some item.report_count then []
            else emitItem ItemType.global.toNat GlobalItemKind.reportCount.toNat (item.report_count : Int) true
  let rc := if s.report_count = some item.report_count then s.report_count
            else some item.report_count
  (⟨lm, lM, rs, rc⟩, b1 ++ b2 ++ b3 ++ b4)

/-- `DescCompilation::emit_field` from macros/src/lib.rs (lines
696-714): changed globals, the field's Main item (settings byte from
the spec, `0x02` = Data,Var,Abs when unset), and for a bit-packed field
the padding shape's changed globals followed by a second Main item of
the same kind with Constant and Variable set. -/
def emitField (s : DescCompilation) (i : ItemSpec) (item : MainItem) : DescCompilation × List Nat :=
  let (s1, gb) := handleGlobals s item
  let itemData : Int :=
    match i.settings with
    | some v => (v : Int)
    | none => 0x02
  let mainB := emitItem ItemType.main.toNat item.kind.toNat itemData true
  match item.padding_bits with
  | some padding =>
      let pitem : MainItem := { item with report_size := 1, report_count := padding }
      let (s2, gb2) := handleGlobals s1 pitem
      let constSettings := setVariable (setConstant 0 true) true
      let padB := emitItem ItemType.main.toNat item.kind.toNat (constSettings : Int) true
      (s2, gb ++ mainB ++ gb2 ++ padB)
  | none => (s1, gb ++ mainB)

/-- `signed_unary_item` from macros/src/lib.rs (lines 864-878).  The
bound is `2u32.pow(bit_width - 1) as isize - 1`; `u32` exponentiation
wraps at `2^32` in release builds (debug builds panic on overflow), so
the wrap is applied explicitly. -/
def signedUnaryItem (id : String) (kind : MainItemKind) (bit_width : Nat) : ReportUnaryField :=
  let bound : Int := ((2 ^ (bit_width - 1) % 4294967296 : Nat) : Int) - 1
  { ident := id
    bit_width := bit_width
    descriptor_item :=
      { kind := kind
        logical_minimum := -bound
        logical_maximum := bound
        report_count := 1
        report_size := bit_width % 65536
        padding_bits := none } }

/-- `unsigned_unary_item` from macros/src/lib.rs (lines 880-893).  The
maximum is `2u32.pow(bit_width) as isize - 1`; for `bit_width = 32` the
`u32` power wraps to 0 in release builds (debug builds panic),
making the logical maximum `-1`. -/
def unsignedUnaryItem (id : String) (kind : MainItemKind) (bit_width : Nat) : ReportUnaryField :=
  { ident := id
    bit_width := bit_width
    descriptor_item :=
      { kind := kind
        logical_minimum := 0
        logical_maximum := ((2 ^ bit_width % 4294967296 : Nat) : Int) - 1
        report_count := 1
        report_size := bit_width % 65536
        padding_bits := none } }

/-- `analyze_field` from macros/src/lib.rs (lines 805-862).  Only the
six exact type names are supported; `want_bits` overrides the shape,
with `remaining_bits = bit_width as u16 - want_bits` (u16 arithmetic,
wrapping in release builds); an array recurses on its element and then
multiplies `report_count` (u16) by the length. -/
def analyzeField (fname : String) (ft : RustType) (item : ItemSpec) : Except String ReportUnaryField :=
  match ft with
  | .path name =>
      let base : Except String ReportUnaryField :=
        match name with
        | "u8" => .ok (unsignedUnaryItem fname item.kind 8)
        | "u16" => .ok (unsignedUnaryItem fname item.kind 16)
        | "u32" => .ok (unsignedUnaryItem fname item.kind 32)
        | "i8" => .ok (signedUnaryItem fname item.kind 8)
        | "i16" => .ok (signedUnaryItem fname item.kind 16)
        | "i32" => .ok (signedUnaryItem fname item.kind 32)
        | _ => .error "`#[gen_hid_descriptor]` type not supported"
      match base with
      | .error e => .error e
      | .ok output =>
          match item.want_bits with
          | some want =>
              let remaining := (output.bit_width % 65536 + 65536 - want % 65536) % 65536
              .ok { output with
                      descriptor_item :=
                        { output.descriptor_item with
                            logical_minimum := 0
                            logical_maximum := 1
                            report_count := want
                            report_size := 1
                            padding_bits := if remaining > 0 then some remaining else none } }
          | none => .ok output
  | .array elem len =>
      if len = 0 then
        .error "`#[gen_hid_descriptor]` array has invalid length"
      else
        match analyzeField fname elem item with
        | .error e => .error e
        | .ok f =>
            .ok { f with
                    descriptor_item :=
                      { f.descriptor_item with
                          report_count := f.descriptor_item.report_count * (len % 65536) % 65536 } }
  | .other => .error "`#[gen_hid_descriptor]` cannot handle field type"

mutual

/-- `GroupSpec` from macros/src/lib.rs: the group parameters (in
declaration order `report_id`, `usage_page`, `collection`, `usage`,
`usage_min`, `usage_max`) plus the ordered children
(`field_order` zipped with the `fields` map). -/
inductive GSpec where
  | mk (report_id usage_page collection usage usage_min usage_max : Option Nat)
       (children : List GChild) : GSpec

/-- `Spec` from macros/src/lib.rs: a child of a group is either a main
item (keyed by the struct field name it binds to) or a nested group. -/
inductive GChild where
  | item (name : String) (spec : ItemSpec) : GChild
  | group (g : GSpec) : GChild

end

/-- `field_decl` from macros/src/lib.rs: look a struct field up by
name (the source panics when absent; here the caller propagates an
error). -/
def lookupField (fields : List (String × RustType)) (name : String) : Option RustType :=
  match fields with
  | [] => none
  | (n, t) :: rest => if n = name then some t else lookupField rest name

mutual

/-- `DescCompilation::emit_group` from macros/src/lib.rs (lines
716-759): usage_page, usage, usage_min, usage_max, report_id and
collection items (in that order), the children in declared order, and
the literal End-Collection byte `0xC0` when the group opened a
collection. -/
def emitGroup (s : DescCompilation) (fields : List (String × RustType)) :
    GSpec → Except String (DescCompilation × List Nat)
  | .mk report_id usage_page collection usage usage_min usage_max children => do
      let b1 := match usage_page with
        | some v => emitItem ItemType.global.toNat GlobalItemKind.usagePage.toNat (v : Int) false
        | none => []
      let b2 := match usage with
        | some v => emitItem ItemType.local.toNat LocalItemKind.usage.toNat (v : Int) false
        | none => []
      let b3 := match usage_min with
        | some v => emitItem ItemType.local.toNat LocalItemKind.usageMin.toNat (v : Int) false
        | none => []
      let b4 := match usage_max with
        | some v => emitItem ItemType.local.toNat LocalItemKind.usageMax.toNat (v : Int) false
        | none => []
      let b5 := match report_id with
        | some v => emitItem ItemType.global.toNat GlobalItemKind.reportID.toNat (v : Int) false
        | none => []
      let b6 := match collection with
        | some v => emitItem ItemType.main.toNat MainItemKind.collection.toNat (v : Int) false
        | none => []
      let (s1, bs) ← emitChildren s fields children
      let closeB := match collection with
        | some _ => [0xc0]
        | none => []
      .ok (s1, b1 ++ b2 ++ b3 ++ b4 ++ b5 ++ b6 ++ bs ++ closeB)

/-- One child of `emit_group`'s loop: a main item runs `analyze_field`
and `emit_field`; a nested group recurses. -/
def emitChild (s : DescCompilation) (fields : List (String × RustType)) :
    GChild → Except String (DescCompilation × List Nat)
  | .item name ispec =>
      match lookupField fields name with
      | some ft =>
          match analyzeField name ft ispec with
          | .ok ruf => .ok (emitField s ispec ruf.descriptor_item)
          | .error e => .error e
      | none => .error "internal error: could not find field which should exist"
  | .group g => emitGroup s fields g

/-- The `for name in spec.clone()` loop of `emit_group`, threading the
compilation state left to right. -/
def emitChildren (s : DescCompilation) (fields : List (String × RustType)) :
    List GChild → Except String (DescCompilation × List Nat)
  | [] => .ok (s, [])
  | c :: rest => do
      let (s1, bs1) ← emitChild s fields c
      let (s2, bs2) ← emitChildren s1 fields rest
      .ok (s2, bs1 ++ bs2)

end

/-- `compile` from macros/src/lib.rs (lines 772-785): run `emit_group`
on a fresh `DescCompilation` and return the emitted byte slice. -/
def compile (spec : GSpec) (fields : List (String × RustType)) : Except String (List Nat) :=
  (emitGroup {} fields spec).map (·.2)

end Lib

namespace Spec

/-- `ItemQuirks` from macros/src/spec.rs (lines 24-27).  It is parsed
from the `quirks` attribute and stored on the refactored revision's
`ItemSpec`, but no code in this snapshot ever reads
`allow_short_form`: the emitter (`Lib.emitItem`) decides the
zero-length form from the item type and kind alone. -/
structure ItemQuirks where
  allow_short_form : Bool := false
deriving DecidableEq, Repr

/-- `ItemSpec` from macros/src/spec.rs (the refactored revision, with
quirks). -/
structure ItemSpec where
  kind : MainItemKind := .input
  quirks : ItemQuirks := {}
  settings : Option Nat := none
  want_bits : Option Nat := none
deriving DecidableEq, Repr

/-- `try_resolve_constant` from macros/src/spec.rs (lines 148-228).
Here `("collection", "LOGICAL")` resolves to `0x2`. -/
def tryResolveConstant (key_name path : String) : Option Nat :=
  match key_name, path with
  | "collection", "PHYSICAL" => some 0x0
  | "collection", "APPLICATION" => some 0x1
  | "collection", "LOGICAL" => some 0x2
  | "collection", "REPORT" => some 0x3
  | "collection", "NAMED_ARRAY" => some 0x4
  | "collection", "USAGE_SWITCH" => some 0x5
  | "collection", "USAGE_MODIFIER" => some 0x06
  | "usage_page", "UNDEFINED" => some 0x00
  | "usage_page", "GENERIC_DESKTOP" => some 0x01
  | "usage_page", "SIMULATION_CONTROLS" => some 0x02
  | "usage_page", "VR_CONTROLS" => some 0x03
  | "usage_page", "SPORT_CONTROLS" => some 0x04
  | "usage_page", "GAME_CONTROLS" => some 0x05
  | "usage_page", "GENERIC_DEVICE_CONTROLS" => some 0x06
  | "usage_page", "KEYBOARD" => some 0x07
  | "usage_page", "LEDS" => some 0x08
  | "usage_page", "BUTTON" => some 0x09
  | "usage_page", "ORDINAL" => some 0x0A
  | "usage_page", "TELEPHONY" => some 0x0B
  | "usage_page", "CONSUMER" => some 0x0C
  | "usage_page", "DIGITIZER" => some 0x0D
  | "usage_page", "ALPHANUMERIC_DISPLAY" => some 0x14
  | "usage_page", "BARCODE_SCANNER" => some 0x8C
  | "usage_page", "VENDOR_DEFINED_START" => some 0xFF00
  | "usage_page", "VENDOR_DEFINED_END" => some 0xFFFF
  | "usage", "POINTER" => some 0x01
  | "usage", "MOUSE" => some 0x02
  | "usage", "JOYSTICK" => some 0x04
  | "usage", "GAMEPAD" => some 0x05
  | "usage", "KEYBOARD" => some 0x06
  | "usage", "KEYPAD" => some 0x07
  | "usage", "MULTI_AXIS_CONTROLLER" => some 0x08
  | "usage", "X" => some 0x30
  | "usage_min", "X" => some 0x30
  | "usage_max", "X" => some 0x30
  | "usage", "Y" => some 0x31
  | "usage_min", "Y" => some 0x31
  | "usage_max", "Y" => some 0x31
  | "usage", "Z" => some 0x32
  | "usage_min", "Z" => some 0x32
  | "usage_max", "Z" => some 0x32
  | "usage", "WHEEL" => some 0x38
  | "usage", "SYSTEM_CONTROL" => some 0x80
  | "usage", "NUM_LOCK" => some 0x01
  | "usage", "CAPS_LOCK" => some 0x02
  | "usage", "SCROLL_LOCK" => some 0x03
  | "usage", "POWER" => some 0x06
  | "usage", "SHIFT" => some 0x07
  | "usage", "MUTE" => some 0x09
  | "usage", "RING" => some 0x18
  | "usage", "BUTTON_NONE" => some 0x00
  | "usage", "BUTTON_1" => some 0x01
  | "usage_min", "BUTTON_1" => some 0x01
  | "usage", "BUTTON_2" => some 0x02
  | "usage", "BUTTON_3" => some 0x03
  | "usage_max", "BUTTON_3" => some 0x03
  | "usage", "BUTTON_4" => some 0x04
  | "usage_max", "BUTTON_4" => some 0x04
  | "usage", "BUTTON_5" => some 0x05
  | "usage", "BUTTON_6" => some 0x06
  | "usage", "BUTTON_7" => some 0x07
  | "usage", "BUTTON_8" => some 0x08
  | "usage_max", "BUTTON_8" => some 0x08
  | "usage", "CLEAR_DISPLAY" => some 0x25
  | "usage", "DISPLAY_ENABLE" => some 0x26
  | "usage", "CHARACTER_REPORT" => some 0x2B
  | "usage", "CHARACTER_DATA" => some 0x2C
  | "usage", "CONSUMER_CONTROL" => some 0x01
  | "usage", "NUMERIC_KEYPAD" => some 0x02
  | "usage", "PROGRAMMABLE_BUTTONS" => some 0x03
  | "usage", "MICROPHONE" => some 0x04
  | "usage", "HEADPHONE" => some 0x05
  | "usage", "GRAPHIC_EQUALIZER" => some 0x06
  | "usage", "AC_PAN" => some 0x0238
  | _, _ => none

end Spec

namespace Item

/-- The numeric value of a decimal digit character (code points 48-57),
`none` otherwise. -/
def charDigit (c : Char) : Option Nat :=
  let n := c.toNat
  if 48 ≤ n ∧ n ≤ 57 then some (n - 48) else none

/-- Accumulate decimal digits left to right; any non-digit fails. -/
def parseDigitsAux (acc : Nat) : List Char → Option Nat
  | [] => some acc
  | c :: cs =>
      match charDigit c with
      | some d => parseDigitsAux (acc * 10 + d) cs
      | none => none

/-- Model of `str::parse::<usize>()` on the width part of a type name:
a non-empty all-digit string parses to its decimal value, anything
else is an error.  (Rust's parser also accepts a leading `+` and
checks for overflow; neither can occur in a Rust type identifier.) -/
def parseDigits (cs : List Char) : Option Nat :=
  match cs with
  | [] => none
  | _ => parseDigitsAux 0 cs

/-- `signed_unary_item` from macros/src/item.rs (lines 113-127),
textually the same computation as `Lib.signedUnaryItem`. -/
def signedUnaryItem (id : String) (kind : MainItemKind) (bit_width : Nat) : ReportUnaryField :=
  let bound : Int := ((2 ^ (bit_width - 1) % 4294967296 : Nat) : Int) - 1
  { ident := id
    bit_width := bit_width
    descriptor_item :=
      { kind := kind
        logical_minimum := -bound
        logical_maximum := bound
        report_count := 1
        report_size := bit_width % 65536
        padding_bits := none } }

/-- `unsigned_unary_item` from macros/src/item.rs (lines 129-142),
textually the same computation as `Lib.unsignedUnaryItem`. -/
def unsignedUnaryItem (id : String) (kind : MainItemKind) (bit_width : Nat) : ReportUnaryField :=
  { ident := id
    bit_width := bit_width
    descriptor_item :=
      { kind := kind
        logical_minimum := 0
        logical_maximum := ((2 ^ bit_width % 4294967296 : Nat) : Int) - 1
        report_count := 1
        report_size := bit_width % 65536
        padding_bits := none } }

/-- `analyze_field` from macros/src/item.rs (lines 26-111), the
refactored revision: the type name is split after its first character
(`split_at(1)` splits at byte index 1, which for the ASCII characters
of a Rust type identifier is the first character) into a sign letter
(`u`/`i`) and a decimal width parsed by `str::parse::<usize>`; in
bit-packed mode `width = bit_width * size` must be at least
`want_bits`, else the insufficient-bits error; finally `report_count`
(u16) is multiplied by the array length unconditionally. -/
def analyzeField (fname : String) (ft : RustType) (item : Spec.ItemSpec) : Except String ReportUnaryField :=
  let sizeAndPath : Except String (Nat × Option String) :=
    match ft with
    | .array elem len =>
        if len = 0 then .error "`#[gen_hid_descriptor]` array has invalid length"
        else match elem with
          | .path name => .ok (len, some name)
          | _ => .ok (len, none)
    | .path name => .ok (1, some name)
    | .other => .ok (0, none)
  match sizeAndPath with
  | .error e => .error e
  | .ok (size, p) =>
      match p with
      | some name =>
          let sign := name.data.take 1
          let size_str := name.data.drop 1
          let container_size := parseDigits size_str
          let type_constructor : Option (String → MainItemKind → Nat → ReportUnaryField) :=
            if sign = ['u'] then some unsignedUnaryItem
            else if sign = ['i'] then some signedUnaryItem
            else none
          match container_size, type_constructor with
          | some w, some ctor =>
              let output := ctor fname item.kind w
              let afterBits : Except String ReportUnaryField :=
                match item.want_bits with
                | some want =>
                    let width := output.bit_width * size
                    if width < want then
                      .error "`#[gen_hid_descriptor]` bit_width < want_bits"
                    else
                      -- `width as u16 - want_bits`: u16 arithmetic, wrapping in
                      -- release builds (debug builds panic on underflow)
                      let remaining := (width % 65536 + 65536 - want % 65536) % 65536
                      .ok { output with
                              descriptor_item :=
                                { output.descriptor_item with
                                    logical_minimum := 0
                                    logical_maximum := 1
                                    report_count := want
                                    report_size := 1
                                    padding_bits := if remaining > 0 then some remaining else none } }
                | none => .ok output
              match afterBits with
              | .error e => .error e
              | .ok f =>
                  .ok { f with
                          descriptor_item :=
                            { f.descriptor_item with
                                report_count := f.descriptor_item.report_count * (size % 65536) % 65536 } }
          | _, _ => .error "`#[gen_hid_descriptor]` type not supported"
      | none => .error "`#[gen_hid_descriptor]` cannot handle field type"

end Item

namespace Packer

/-- One `s.serialize_element(...)` statement produced by
`gen_serializer` in macros/src/packer.rs: either a cast to an exact
scalar type (`make_unary_serialize_invocation`; an unsupported
bits/sign pair produces an empty token stream but still one tuple
element) or the field serialized directly. -/
inductive SerStep where
  | unary (bits : Nat) (signed : Bool) (ident : String)
  | direct (ident : String)
deriving DecidableEq, Repr

/-- `gen_serializer` from macros/src/packer.rs (lines 39-96): the
ordered serialize steps for the fields of the requested direction.
A field of report size 8 with report count above 32 is skipped without
error; 16/32-bit fields of report count above 1 are an error; other
report sizes are an error. -/
def genSerializer (fields : List ReportUnaryField) (typ : MainItemKind) : Except String (List SerStep) :=
  match fields with
  | [] => .ok []
  | f :: rest =>
      if f.descriptor_item.kind ≠ typ then genSerializer rest typ
      else
        let signed := decide (f.descriptor_item.logical_minimum < 0)
        match f.descriptor_item.report_size with
        | 1 => do
            let steps ← genSerializer rest typ
            if f.descriptor_item.report_count = 1 then
              .ok (SerStep.unary f.bit_width signed f.ident :: steps)
            else
              .ok (SerStep.direct f.ident :: steps)
        | 8 => do
            let steps ← genSerializer rest typ
            if f.descriptor_item.report_count = 1 then
              .ok (SerStep.unary 8 signed f.ident :: steps)
            else if f.descriptor_item.report_count ≤ 32 then
              .ok (SerStep.direct f.ident :: steps)
            else
              -- arrays larger than 32 are silently excluded
              .ok steps
        | 16 => do
            if f.descriptor_item.report_count = 1 then
              let steps ← genSerializer rest typ
              .ok (SerStep.unary 16 signed f.ident :: steps)
            else
              .error "Arrays of 16/32bit fields not supported"
        | 32 => do
            if f.descriptor_item.report_count = 1 then
              let steps ← genSerializer rest typ
              .ok (SerStep.unary 32 signed f.ident :: steps)
            else
              .error "Arrays of 16/32bit fields not supported"
        | _ => .error "Unsupported report size for serialization"

/-- The tuple-serialization envelope of `gen_serializer`:
`serializer.serialize_tuple(#idx)` where `idx = Index::from(elems.len())`
is the number of steps actually pushed. -/
def genSerializerEnvelope (fields : List ReportUnaryField) (typ : MainItemKind) :
    Except String (List SerStep × Nat) :=
  (genSerializer fields typ).map (fun steps => (steps, steps.length))

end Packer

/-! ## Concrete inputs used by the claims -/

/-- The group spec of end-to-end scenario A:
`(collection = 0x01, usage = 0x01, usage_page = 0xff00) = { f1=input; f2=output; }`. -/
def scenarioASpec : Lib.GSpec :=
  .mk none (some 0xff00) (some 0x01) (some 0x01) none none
    [.item "f1" { kind := .input }, .item "f2" { kind := .output }]

/-- The struct of end-to-end scenario A: `{ f1: u8, f2: u16 }`. -/
def scenarioAFields : List (String × RustType) :=
  [("f1", .path "u8"), ("f2", .path "u16")]

/-- The item spec of end-to-end scenario B: `#[packed_bits 3] f1=input`
(monolithic revision's `ItemSpec`). -/
def packedBitsSpec : Lib.ItemSpec :=
  { kind := .input, want_bits := some 3 }

/-- A `report_size = 8` field with `report_count = 33`: the serializer
generator skips it. -/
def bigArrayField : ReportUnaryField :=
  ⟨8, ⟨.input, 0, 255, 33, 8, none⟩, "big"⟩

/-- A `report_size = 16` field with `report_count = 2`: the serializer
generator rejects it. -/
def wideArrayField : ReportUnaryField :=
  ⟨16, ⟨.input, 0, 65535, 2, 16, none⟩, "wide"⟩

end UsbdHid

namespace UsbdHid

open Descriptors

/-! ## Theorems -/

/-- C1: compiling the struct `{f1: u8, f2: u16}` under the spec
`(collection=0x01, usage=0x01, usage_page=0xff00) = { f1=input; f2=output; }`
produces exactly the byte sequence
`06 00 FF 09 01 A1 01 15 00 26 FF 00 75 08 95 01 81 02 27 FF FF 00 00 75 10 91 02 C0`. -/
theorem scenarioA_descriptor_bytes :
    Lib.compile scenarioASpec scenarioAFields =
      .ok [0x06, 0x00, 0xFF, 0x09, 0x01, 0xA1, 0x01, 0x15, 0x00, 0x26, 0xFF, 0x00,
           0x75, 0x08, 0x95, 0x01, 0x81, 0x02, 0x27, 0xFF, 0xFF, 0x00, 0x00,
           0x75, 0x10, 0x91, 0x02, 0xC0] := rfl

/-- C2: the item-data encoding emits the shortest of 1, 2 or 4
little-endian data bytes: 1 byte iff bytes 1..3 are zero and not
(signed and byte 0 = 0xFF); else 2 bytes iff bytes 2..3 are zero and
not (signed and byte 1 = 0xFF); else 4 bytes; the data bytes are the
little-endian low bytes of the value.  In particular value 0 emits a
1-byte payload, 255 unsigned emits 1 byte, and 255 signed emits 2
bytes. -/
theorem emit_shortest_encoding :
    (∀ (hdr b0 b1 b2 b3 : Nat) (signed : Bool),
      ((Lib.emit hdr b0 b1 b2 b3 signed).drop 1).length = 1 ↔
        (b1 = 0 ∧ b2 = 0 ∧ b3 = 0 ∧ ¬(signed = true ∧ b0 = 255)))
    ∧ (∀ (hdr b0 b1 b2 b3 : Nat) (signed : Bool),
      ((Lib.emit hdr b0 b1 b2 b3 signed).drop 1).length = 2 ↔
        (¬(b1 = 0 ∧ b2 = 0 ∧ b3 = 0 ∧ ¬(signed = true ∧ b0 = 255))
          ∧ (b2 = 0 ∧ b3 = 0 ∧ ¬(signed = true ∧ b1 = 255))))
    ∧ (∀ (hdr b0 b1 b2 b3 : Nat) (signed : Bool),
      ((Lib.emit hdr b0 b1 b2 b3 signed).drop 1).length = 4 ↔
        (¬(b1 = 0 ∧ b2 = 0 ∧ b3 = 0 ∧ ¬(signed = true ∧ b0 = 255))
          ∧ ¬(b2 = 0 ∧ b3 = 0 ∧ ¬(signed = true ∧ b1 = 255))))
    ∧ (∀ (hdr b0 b1 b2 b3 : Nat) (signed : Bool),
      (Lib.emit hdr b0 b1 b2 b3 signed).drop 1 =
        List.take ((Lib.emit hdr b0 b1 b2 b3 signed).drop 1).length [b0, b1, b2, b3])
    ∧ ((Lib.emitItem ItemType.global.toNat GlobalItemKind.logicalMax.toNat 0 false).drop 1).length = 1
    ∧ ((Lib.emitItem ItemType.global.toNat GlobalItemKind.logicalMax.toNat 255 false).drop 1).length = 1
    ∧ ((Lib.emitItem ItemType.global.toNat GlobalItemKind.logicalMax.toNat 255 true).drop 1).length = 2 := by
  refine ⟨?_, ?_, ?_, ?_, rfl, rfl, rfl⟩
  all_goals
    intro hdr b0 b1 b2 b3 signed
    unfold Lib.emit
    split_ifs with h1 h2 <;> simp_all <;> tauto

/-- C10: converting an item clause's right-hand-side identifier that is
not one of the recognized kind keywords does not fail: the kind
defaults to `Input`. -/
theorem main_item_kind_default_input :
    ∀ s : String, s ≠ "feature" → s ≠ "output" → s ≠ "collection" → s ≠ "ecollection" →
      stringToMainItemKind s = MainItemKind.input := by
  intro s h1 h2 h3 h4
  unfold stringToMainItemKind
  rw [if_neg h1, if_neg h2, if_neg h3, if_neg h4]
  split_ifs <;> rfl

/-- Witness for C10: the unrecognized keyword `banana` maps to `Input`. -/
theorem main_item_kind_default_input_witness :
    stringToMainItemKind "banana" = MainItemKind.input :=
  main_item_kind_default_input "banana" (by decide) (by decide) (by decide) (by decide)

/-- C7: the refactored resolver (spec.rs) maps the collection kinds to
Physical=0, Application=1, Logical=2, Report=3, NamedArray=4,
UsageSwitch=5, UsageModifier=6 exactly as claimed, while the monolithic
resolver (lib.rs) — the one reachable from the crate root — maps
`LOGICAL` to 3, the same value as `REPORT`, contradicting the claim's
`resolve(collection, LOGICAL) = 2`. -/
theorem resolve_collection_constants :
    Spec.tryResolveConstant "collection" "PHYSICAL" = some 0
    ∧ Spec.tryResolveConstant "collection" "APPLICATION" = some 1
    ∧ Spec.tryResolveConstant "collection" "LOGICAL" = some 2
    ∧ Spec.tryResolveConstant "collection" "REPORT" = some 3
    ∧ Spec.tryResolveConstant "collection" "NAMED_ARRAY" = some 4
    ∧ Spec.tryResolveConstant "collection" "USAGE_SWITCH" = some 5
    ∧ Spec.tryResolveConstant "collection" "USAGE_MODIFIER" = some 6
    ∧ Lib.tryResolveConstant "collection" "PHYSICAL" = some 0
    ∧ Lib.tryResolveConstant "collection" "APPLICATION" = some 1
    ∧ Lib.tryResolveConstant "collection" "LOGICAL" = some 3
    ∧ Lib.tryResolveConstant "collection" "REPORT" = some 3
    ∧ Lib.tryResolveConstant "collection" "NAMED_ARRAY" = some 4
    ∧ Lib.tryResolveConstant "collection" "USAGE_SWITCH" = some 5
    ∧ Lib.tryResolveConstant "collection" "USAGE_MODIFIER" = some 6 :=
  ⟨rfl, rfl, rfl, rfl, rfl, rfl, rfl, rfl, rfl, rfl, rfl, rfl, rfl, rfl⟩

/-- C4: for non-bit-packed scalar fields, field analysis gives
unsigned ranges `[0, 2^N-1]` and signed ranges
`[-(2^(N-1)-1), 2^(N-1)-1]` for N = 8 and 16, and the signed range for
N = 32 — but for `u32` the computation `2u32.pow(32)` overflows
(panicking under debug assertions, wrapping to 0 in release), so the
logical maximum comes out as `-1` instead of the claimed `2^32 - 1`. -/
theorem unary_item_logical_range :
    ∀ (k : MainItemKind) (st : Option Nat),
      Lib.analyzeField "f" (.path "u8") ⟨k, st, none⟩ = .ok ⟨8, ⟨k, 0, 255, 1, 8, none⟩, "f"⟩
      ∧ Lib.analyzeField "f" (.path "u16") ⟨k, st, none⟩ = .ok ⟨16, ⟨k, 0, 65535, 1, 16, none⟩, "f"⟩
      ∧ Lib.analyzeField "f" (.path "i8") ⟨k, st, none⟩ = .ok ⟨8, ⟨k, -127, 127, 1, 8, none⟩, "f"⟩
      ∧ Lib.analyzeField "f" (.path "i16") ⟨k, st, none⟩ = .ok ⟨16, ⟨k, -32767, 32767, 1, 16, none⟩, "f"⟩
      ∧ Lib.analyzeField "f" (.path "i32") ⟨k, st, none⟩ = .ok ⟨32, ⟨k, -2147483647, 2147483647, 1, 32, none⟩, "f"⟩
      ∧ Lib.analyzeField "f" (.path "u32") ⟨k, st, none⟩ = .ok ⟨32, ⟨k, 0, -1, 1, 32, none⟩, "f"⟩ := by
  intro k st
  exact ⟨rfl, rfl, rfl, rfl, rfl, rfl⟩

/-- C5 counterexample: with no quirk anywhere in sight (the emitter
takes none), an Input Main item with value 0 is emitted as a single
header byte — a 0-byte data payload — where the claim predicted a
1-byte payload (2 bytes total) in the default configuration. -/
theorem emit_item_zero_input_counterexample :
    (Lib.emitItem ItemType.main.toNat MainItemKind.input.toNat 0 true).length = 1
    ∧ (1 : Nat) ≠ 2 :=
  ⟨rfl, by decide⟩

/-- C5 amended: an Input Main item with value 0 is always encoded with
a 0-byte data payload — the emitter's `allow_short` depends only on the
item type and kind, never on the parsed `allow_short_form` quirk — and
every other combination gets at least one data byte. -/
theorem emit_item_short_form_unconditional :
    ∀ (typ kind : Nat) (num : Int) (signed : Bool),
      (Lib.emitItem typ kind num signed).length = 1 ↔
        (typ = ItemType.main.toNat ∧ kind = MainItemKind.input.toNat ∧ num = 0) := by
  intro typ kind num signed
  unfold Lib.emitItem
  dsimp only
  split_ifs with h
  · simp only [List.length_singleton, true_iff]
    exact ⟨h.1.1, h.1.2, h.2⟩
  · constructor
    · intro hv
      exfalso
      revert hv
      rcases hb : Lib.i32leBytes num with ⟨b0, b1, b2, b3⟩
      unfold Lib.emit
      split_ifs <;> simp
    · intro hv
      exact absurd ⟨⟨hv.1, hv.2.1⟩, hv.2.2⟩ h

/-- After `handle_globals` runs, all four cached globals equal the
item's values, whatever the previous cache was. -/
theorem handleGlobals_fst (s : DescCompilation) (item : MainItem) :
    (Lib.handleGlobals s item).1 =
      ⟨some item.logical_minimum, some item.logical_maximum,
       some item.report_size, some item.report_count⟩ := by
  unfold Lib.handleGlobals
  dsimp only
  split_ifs with h1 h2 h3 h4 <;> simp_all

/-- C3: after a field's globals are emitted, a second field's
`handle_globals` emits, in the fixed order logical-minimum,
logical-maximum, report-size, report-count, exactly the global items
whose value differs from the first field's — none when the two tuples
are identical, and exactly one when exactly one component differs. -/
theorem handle_globals_dedup_order :
    ∀ (s : DescCompilation) (i1 i2 : MainItem),
      (Lib.handleGlobals s i1).1 =
        ⟨some i1.logical_minimum, some i1.logical_maximum,
         some i1.report_size, some i1.report_count⟩
      ∧ (Lib.handleGlobals (Lib.handleGlobals s i1).1 i2).2 =
          (if i1.logical_minimum = i2.logical_minimum then []
           else Lib.emitItem ItemType.global.toNat GlobalItemKind.logicalMin.toNat i2.logical_minimum true)
          ++ (if i1.logical_maximum = i2.logical_maximum then []
              else Lib.emitItem ItemType.global.toNat GlobalItemKind.logicalMax.toNat i2.logical_maximum true)
          ++ (if i1.report_size = i2.report_size then []
              else Lib.emitItem ItemType.global.toNat GlobalItemKind.reportSize.toNat (i2.report_size : Int) true)
          ++ (if i1.report_count = i2.report_count then []
              else Lib.emitItem ItemType.global.toNat GlobalItemKind.reportCount.toNat (i2.report_count : Int) true) := by
  intro s i1 i2
  refine ⟨handleGlobals_fst s i1, ?_⟩
  rw [handleGlobals_fst]
  unfold Lib.handleGlobals
  simp only [Option.some.injEq]

/-- C8 counterexample: for the array field `[u8; 2]` with
`want_bits = 3`, field analysis returns `report_count = 6`
(`want_bits` times the array length), not the claimed `3`. -/
theorem analyze_field_want_bits_array_counterexample :
    (Item.analyzeField "f" (.array (.path "u8") 2) ⟨.input, {}, none, some 3⟩).map
        (·.descriptor_item.report_count) = .ok 6
    ∧ (6 : Nat) ≠ 3 :=
  ⟨rfl, by decide⟩

/-- C8 amended: for a field of a `u<w>`/`i<w>` scalar type (array
length `len`, `1` for a scalar) with `want_bits = want`, field analysis
sets `logical_minimum = 0`, `logical_maximum = 1`, `report_size = 1`
and `report_count = want * len` (`want` for a scalar field); when
`w * len < want` it returns the insufficient-bits error, and otherwise
the excess bits become `padding_bits = w * len - want` (absent when
zero).  The bounds keep the `u16` arithmetic away from its wrap. -/
theorem analyze_field_want_bits :
    ∀ (fname tyName : String) (ft : RustType) (w len want : Nat) (k : MainItemKind)
      (q : Spec.ItemQuirks) (st : Option Nat),
      (ft = RustType.path tyName ∧ len = 1 ∨ ft = RustType.array (RustType.path tyName) len ∧ 0 < len) →
      (tyName.data.take 1 = ['u'] ∨ tyName.data.take 1 = ['i']) →
      Item.parseDigits (tyName.data.drop 1) = some w →
      len < 65536 → w * len < 65536 → want * len < 65536 →
      Item.analyzeField fname ft ⟨k, q, st, some want⟩ =
        (if w * len < want then
           .error "`#[gen_hid_descriptor]` bit_width < want_bits"
         else
           .ok ⟨w, ⟨k, 0, 1, want * len, 1,
                    if 0 < w * len - want then some (w * len - want) else none⟩, fname⟩) := by
  intro fname tyName ft w len want k q st hft hsign hw hlen hwidth hwl
  rcases hft with ⟨hf, hl⟩ | ⟨hf, hl⟩ <;> subst hf
  · subst hl
    simp only [Item.analyzeField, hw]
    rcases hsign with hu | hu <;> rw [hu]
    · rw [if_pos rfl]
      simp only [Item.unsignedUnaryItem]
      rcases Nat.lt_or_ge (w * 1) want with hlt | hge
      · simp only [if_pos hlt]
      · have hnlt : ¬ w * 1 < want := Nat.not_lt.mpr hge
        simp only [if_neg hnlt]
        have e1 : want * (1 % 65536) % 65536 = want * 1 := by omega
        have e2 : (w * 1 % 65536 + 65536 - want % 65536) % 65536 = w * 1 - want := by omega
        rw [e1, e2]
    · rw [if_neg (by decide), if_pos rfl]
      simp only [Item.signedUnaryItem]
      rcases Nat.lt_or_ge (w * 1) want with hlt | hge
      · simp only [if_pos hlt]
      · have hnlt : ¬ w * 1 < want := Nat.not_lt.mpr hge
        simp only [if_neg hnlt]
        have e1 : want * (1 % 65536) % 65536 = want * 1 := by omega
        have e2 : (w * 1 % 65536 + 65536 - want % 65536) % 65536 = w * 1 - want := by omega
        rw [e1, e2]
  · simp only [Item.analyzeField]
    rw [if_neg (by omega)]
    dsimp only
    rw [hw]
    rcases hsign with hu | hu <;> rw [hu]
    · rw [if_pos rfl]
      simp only [Item.unsignedUnaryItem]
      rcases Nat.lt_or_ge (w * len) want with hlt | hge
      · simp only [if_pos hlt]
      · have hnlt : ¬ w * len < want := Nat.not_lt.mpr hge
        simp only [if_neg hnlt]
        have e1 : want * (len % 65536) % 65536 = want * len := by
          rw [Nat.mod_eq_of_lt hlen]; exact Nat.mod_eq_of_lt hwl
        have e2 : (w * len % 65536 + 65536 - want % 65536) % 65536 = w * len - want := by omega
        rw [e1, e2]
    · rw [if_neg (by decide), if_pos rfl]
      simp only [Item.signedUnaryItem]
      rcases Nat.lt_or_ge (w * len) want with hlt | hge
      · simp only [if_pos hlt]
      · have hnlt : ¬ w * len < want := Nat.not_lt.mpr hge
        simp only [if_neg hnlt]
        have e1 : want * (len % 65536) % 65536 = want * len := by
          rw [Nat.mod_eq_of_lt hlen]; exact Nat.mod_eq_of_lt hwl
        have e2 : (w * len % 65536 + 65536 - want % 65536) % 65536 = w * len - want := by omega
        rw [e1, e2]

/-- C9: in serializer generation a field with `report_size = 8` and
`report_count > 32` is silently skipped, a field with `report_size`
16 or 32 and `report_count > 1` is the unsupported-array-width error,
and the tuple-serialization envelope's declared length equals the
number of steps actually emitted. -/
theorem gen_serializer_rules :
    (∀ (pre post : List ReportUnaryField) (f : ReportUnaryField) (typ : MainItemKind),
      f.descriptor_item.kind = typ → f.descriptor_item.report_size = 8 →
      32 < f.descriptor_item.report_count →
      Packer.genSerializer (pre ++ f :: post) typ = Packer.genSerializer (pre ++ post) typ)
    ∧ (∀ (rest : List ReportUnaryField) (f : ReportUnaryField) (typ : MainItemKind),
      f.descriptor_item.kind = typ →
      (f.descriptor_item.report_size = 16 ∨ f.descriptor_item.report_size = 32) →
      1 < f.descriptor_item.report_count →
      Packer.genSerializer (f :: rest) typ = .error "Arrays of 16/32bit fields not supported")
    ∧ (∀ (fields : List ReportUnaryField) (typ : MainItemKind) (out : List Packer.SerStep × Nat),
      Packer.genSerializerEnvelope fields typ = .ok out → out.2 = out.1.length) := by
  refine ⟨?_, ?_, ?_⟩
  · intro pre post f typ h1 h2 h3
    have hne1 : ¬ f.descriptor_item.report_count = 1 := by omega
    have hne2 : ¬ f.descriptor_item.report_count ≤ 32 := by omega
    induction pre with
    | nil =>
        simp only [List.nil_append, Packer.genSerializer, h1, h2]
        simp only [if_neg hne1, if_neg hne2]
        split
        · rfl
        · cases Packer.genSerializer post typ <;> rfl
    | cons p pre ih =>
        simp only [List.cons_append, Packer.genSerializer, List.append_eq]
        rw [ih]
  · intro rest f typ h1 h2 h3
    have hne1 : ¬ f.descriptor_item.report_count = 1 := by omega
    rcases h2 with h2 | h2 <;>
      simp only [Packer.genSerializer, h1, h2, if_neg hne1] <;> simp
  · intro fields typ out h
    cases hgs : Packer.genSerializer fields typ with
    | ok s =>
        simp only [Packer.genSerializerEnvelope, hgs, Except.map] at h
        cases h
        rfl
    | error e =>
        simp [Packer.genSerializerEnvelope, hgs, Except.map] at h

/-- Witness for C8: a scalar `u8` field with `want_bits = 3` analyzes
to report count 3, report size 1, logical range 0..1 and 5 padding
bits. -/
theorem analyze_field_want_bits_witness :
    Item.analyzeField "f" (.path "u8") ⟨.input, {}, none, some 3⟩ =
      (if 8 * 1 < 3 then
         .error "`#[gen_hid_descriptor]` bit_width < want_bits"
       else
         .ok ⟨8, ⟨.input, 0, 1, 3 * 1, 1,
                  if 0 < 8 * 1 - 3 then some (8 * 1 - 3) else none⟩, "f"⟩) :=
  analyze_field_want_bits "f" "u8" (.path "u8") 8 1 3 .input {} none
    (Or.inl ⟨rfl, rfl⟩) (Or.inl (by decide)) (by decide)
    (by decide) (by decide) (by decide)

/-- Witness for C9: a 33-element byte array field is skipped, a
2-element 16-bit array field errors, and the empty envelope declares
length 0. -/
theorem gen_serializer_rules_witness :
    Packer.genSerializer ([] ++ bigArrayField :: []) MainItemKind.input =
      Packer.genSerializer ([] ++ []) MainItemKind.input
    ∧ Packer.genSerializer (wideArrayField :: []) MainItemKind.input =
      .error "Arrays of 16/32bit fields not supported"
    ∧ (([], 0) : List Packer.SerStep × Nat).2 = (([], 0) : List Packer.SerStep × Nat).1.length :=
  ⟨gen_serializer_rules.1 [] [] bigArrayField .input rfl rfl (by decide),
   gen_serializer_rules.2.1 [] wideArrayField .input rfl (Or.inl rfl) (by decide),
   gen_serializer_rules.2.2 [] .input ([], 0) rfl⟩

/-- C6 counterexample: for a `u8` field with `#[packed_bits 3]` as
input, the padding Main item's settings byte (the last emitted byte) is
`0x03` (Constant = bit 0, Variable = bit 1 of `MainItemSetting`), not
the claimed `0x06`. -/
theorem packed_bits_padding_settings_counterexample :
    (Lib.analyzeField "f1" (.path "u8") packedBitsSpec).map
        (fun ruf => ((Lib.emitField {} packedBitsSpec ruf.descriptor_item).2).getLast?) =
      .ok (some 3)
    ∧ some (3 : Nat) ≠ some 6 :=
  ⟨rfl, by decide⟩

/-- C6 amended: a `u8` field with `#[packed_bits 3]` as input analyzes
to Report Size 1 / Report Count 3 with 5 padding bits, and emits the
data Main Input item (settings `0x02`) followed by a Report Count 5
global and a second Main Input item whose settings byte is `0x03`
(Constant and Variable bits set). -/
theorem packed_bits_padding_bytes :
    Lib.analyzeField "f1" (.path "u8") packedBitsSpec =
      .ok ⟨8, ⟨.input, 0, 1, 3, 1, some 5⟩, "f1"⟩
    ∧ (Lib.analyzeField "f1" (.path "u8") packedBitsSpec).map
        (fun ruf => (Lib.emitField {} packedBitsSpec ruf.descriptor_item).2) =
      .ok [0x15, 0x00, 0x25, 0x01, 0x75, 0x01, 0x95, 0x03, 0x81, 0x02, 0x95, 0x05, 0x81, 0x03] :=
  ⟨rfl, rfl⟩

end UsbdHid
